import Mathlib

/-!
# Verification of mcpo (`src/mcpo/main.py`)

A shallow embedding of the MCP-to-OpenAPI proxy in `src/mcpo/main.py`:
the JSON-Schema-to-Python type translator (`get_python_type`), the
tool-response normalizer (`process_tool_response`), the dynamic endpoint
synthesis loop (`create_dynamic_endpoints` with `make_endpoint_func` /
`make_endpoint_func_no_args`), the startup configuration check in `run`,
the sequential multi-backend startup in `lifespan`, and the child-process
environment construction in `run`.

Conventions of the embedding:
* Python values appearing in request bodies, parsed JSON and forwarded
  arguments are modelled by the inductive `JValue`.  Python `dict`s are
  modelled as association lists (`List (String × _)`) looked up with
  `find?` (first binding wins, matching unique-key Python dicts; the
  merge `\x7b**a, **b\x7d` is modelled by `dictMerge`).
* `json.loads` is an external library call; the embedding takes the
  parser as an explicit parameter `parse : String → Option JValue` and
  branches on its success exactly as the source does.
* Python floats are only ever tag-checked (never computed with) by the
  code under verification, so `JValue.num` carries an abstract `Int`
  payload standing for the numeric literal.
-/

namespace Mcpo

/-- JSON / Python values as they appear in request bodies, parsed
`json.loads` output and forwarded tool arguments.  `int` and `num`
mirror Python's distinct `int` / `float` results of `json.loads`. -/
inductive JValue where
  | null
  | bool (b : Bool)
  | int (n : Int)
  | num (n : Int)
  | str (s : String)
  | arr (xs : List JValue)
  | obj (fields : List (String × JValue))
  deriving Repr

/-- The Python types that `get_python_type` can return:
`str`, `int`, `bool`, `float`, `Dict[str, Any]`, `list`. -/
inductive PyType where
  | str
  | int
  | bool
  | float
  | dictStrAny
  | list
  deriving Repr, DecidableEq

/-- Embedding of `get_python_type` (main.py lines 18–33): maps a
JSON-Schema type name to a Python type, falling back to `str` for any
unrecognized name.  Total by construction, mirroring the source's
catch-all `else` branch. -/
def get_python_type (param_type : String) : PyType :=
  if param_type = "string" then .str
  else if param_type = "integer" then .int
  else if param_type = "boolean" then .bool
  else if param_type = "number" then .float
  else if param_type = "object" then .dictStrAny
  else if param_type = "array" then .list
  else .str  -- Fallback

/-- One content part of a `CallToolResult`.  The source distinguishes
parts by `isinstance` checks against `types.TextContent`,
`types.ImageContent` and `types.EmbeddedResource`; `other` stands for a
runtime part matched by none of the three checks. -/
inductive Content where
  | text (t : String)
  | image (mimeType data : String)
  | embeddedResource
  | other
  deriving Repr, DecidableEq

/-- Embedding of `process_tool_response` (main.py lines 36–54),
parameterized by the external JSON parser (`json.loads`): text parts are
replaced by their parsed value when parsing succeeds and passed through
raw otherwise; image parts become a data-URI string; embedded resources
become a fixed placeholder string.  The `isinstance(text, str)` guard in
the source is always true here because `TextContent.text` is a string.
The source's `if/elif/elif` chain has no `else`, so a part of any other
kind appends nothing. -/
def process_tool_response (parse : String → Option JValue) :
    List Content → List JValue
  | [] => []
  | c :: rest =>
    (match c with
      | .text t =>
        match parse t with
        | some v => [v]
        | none => [.str t]
      | .image mimeType data =>
        [.str ("data:" ++ mimeType ++ ";base64," ++ data)]
      | .embeddedResource => [.str "Embedded resource not supported yet."]
      | .other => []) ++ process_tool_response parse rest

/-- A content part handled by one of the three `isinstance` branches of
`process_tool_response`. -/
def isKnownContent : Content → Bool
  | .other => false
  | _ => true

/-- The single normalized value produced for a known content part
(arbitrary for `other`, which the source never appends). -/
def normalizeOne (parse : String → Option JValue) : Content → JValue
  | .text t =>
    match parse t with
    | some v => v
    | none => .str t
  | .image mimeType data => .str ("data:" ++ mimeType ++ ";base64," ++ data)
  | .embeddedResource => .str "Embedded resource not supported yet."
  | .other => .null

/-! ## Tool schemas and the endpoint-synthesis loop
(`create_dynamic_endpoints`, main.py lines 57–127) -/

/-- One entry of a tool's `inputSchema.properties` map: the source reads
`param_schema.get("type", "string")` and
`param_schema.get("description", "")`, so both keys may be absent. -/
structure ParamSchema where
  type? : Option String
  description? : Option String
  deriving Repr, DecidableEq

/-- A tool's `inputSchema` object: the source reads
`schema.get("required", [])` and `schema.get("properties", \x7b\x7d)`,
so both keys may be absent. -/
structure InputSchema where
  properties : Option (List (String × ParamSchema))
  required : Option (List String)
  deriving Repr, DecidableEq

/-- A `ToolDescriptor` as returned by `session.list_tools()`. -/
structure Tool where
  name : String
  description : String
  inputSchema : InputSchema
  deriving Repr, DecidableEq

/-- One field of the per-tool pydantic `FormModel`: the mapped Python
type and whether the field is required (`default_value = ...`) or
optional (`default_value = None`), per main.py lines 83–91. -/
structure ModelField where
  type : PyType
  required : Bool
  description : String
  deriving Repr, DecidableEq

/-- The `model_fields` dict built by the loop at main.py lines 83–91:
one entry per declared property, typed via `get_python_type`, required
iff the name is listed in the schema's `required` array. -/
def buildModelFields (schema : InputSchema) : List (String × ModelField) :=
  (schema.properties.getD []).map fun p =>
    (p.1,
      { type := get_python_type (p.2.type?.getD "string"),
        required := (schema.required.getD []).contains p.1,
        description := p.2.description?.getD "" })

/-! ### Request validation (FastAPI / pydantic semantics)

The handler signature `async def tool(form_data: FormModel)` makes the
host framework validate the JSON request body against the pydantic
model before the handler body runs; the handler is the only code that
calls `session.call_tool`.  The framework behaviour embedded here:
each declared field is looked up in the body object; a required field
must be present with a value of the mapped type, an optional field
defaults to `None` when absent; a present value of the wrong type is a
validation error; validation failure yields a 422 client-error response
without ever entering the handler. -/

/-- Whether a JSON body value is accepted for a field of the given
Python type.  `float` also accepts a JSON integer (numeric widening);
`null` is accepted by no mapped type (none of the model fields is
declared `Optional`). -/
def typeMatches : PyType → JValue → Bool
  | .str, .str _ => true
  | .int, .int _ => true
  | .bool, .bool _ => true
  | .float, .num _ => true
  | .float, .int _ => true
  | .dictStrAny, .obj _ => true
  | .list, .arr _ => true
  | _, _ => false

/-- Look up a key in a JSON object / Python dict modelled as an
association list. -/
def lookupKey (fields : List (String × JValue)) (name : String) :
    Option JValue :=
  (fields.find? fun p => p.1 == name).map (·.2)

/-- Validate one model field against the request body: `none` is a
validation error; `some v?` is the decoded field value, with `some none`
the `None` default of an absent optional field. -/
def validateField (field : ModelField) (body : List (String × JValue))
    (name : String) : Option (Option JValue) :=
  match lookupKey body name with
  | some v => if typeMatches field.type v then some (some v) else none
  | none => if field.required then none else some none

/-- Validate a request body against all fields of the form model,
producing the decoded `form_data` (field name → value, `none` = the
`None` default) or a validation error. -/
def validateBody (fields : List (String × ModelField))
    (body : List (String × JValue)) :
    Option (List (String × Option JValue)) :=
  match fields with
  | [] => some []
  | f :: rest =>
    match validateField f.2 body f.1, validateBody rest body with
    | some v?, some tail => some ((f.1, v?) :: tail)
    | _, _ => none

/-- Embedding of `form_data.model_dump(exclude_none=True)` (main.py
line 100): the decoded fields with every `None` value stripped. -/
def model_dump_exclude_none (form_data : List (String × Option JValue)) :
    List (String × JValue) :=
  form_data.filterMap fun p => p.2.map (p.1, ·)

/-- One invocation of `session.call_tool(name, arguments)` observed at
the backend. -/
structure BackendCall where
  tool : String
  arguments : List (String × JValue)
  deriving Repr

/-- The HTTP outcome of one request to a synthesized endpoint. -/
inductive EndpointResponse where
  | clientError
  | ok (body : List JValue)
  deriving Repr

/-- Embedding of a request to the parametrized endpoint produced by
`make_endpoint_func` (main.py lines 96–106), including the framework's
validation step: on validation failure respond 422 without calling the
backend; on success dump the non-`None` arguments, call
`session.call_tool` (modelled by `backend`, which maps a tool name and
arguments to the resulting content list) and return the processed
response.  The second component records the backend calls made while
serving the request. -/
def invokeEndpoint (parse : String → Option JValue) (endpoint_name : String)
    (fields : List (String × ModelField))
    (backend : String → List (String × JValue) → List Content)
    (body : List (String × JValue)) :
    EndpointResponse × List BackendCall :=
  match validateBody fields body with
  | none => (.clientError, [])
  | some form_data =>
    let args := model_dump_exclude_none form_data
    (.ok (process_tool_response parse (backend endpoint_name args)),
      [{ tool := endpoint_name, arguments := args }])

/-- Embedding of a request to the parameterless endpoint produced by
`make_endpoint_func_no_args` (main.py lines 109–120): no body is
decoded and the backend is always called with an empty argument dict. -/
def invokeEndpointNoArgs (parse : String → Option JValue)
    (endpoint_name : String)
    (backend : String → List (String × JValue) → List Content) :
    EndpointResponse × List BackendCall :=
  (.ok (process_tool_response parse (backend endpoint_name [])),
    [{ tool := endpoint_name, arguments := [] }])

/-- The handler bound to a registered route: parametrized when the
tool's `model_fields` is non-empty, parameterless otherwise. -/
inductive Handler where
  | withArgs (fields : List (String × ModelField))
  | noArgs
  deriving Repr, DecidableEq

/-- One route registered by `app.post(f"/\x7bendpoint_name\x7d", ...)`. -/
structure Registration where
  path : String
  description : String
  handler : Handler
  deriving Repr, DecidableEq

/-- The registration performed for one tool by the loop body of
`create_dynamic_endpoints` (main.py lines 74–127): build `model_fields`
from the schema, pick the parametrized handler if it is non-empty
(`if model_fields:`) and the parameterless one otherwise, and register
the handler at path `/\x7btool.name\x7d`. -/
def registerTool (tool : Tool) : Registration :=
  let model_fields := buildModelFields tool.inputSchema
  { path := "/" ++ tool.name,
    description := tool.description,
    handler :=
      if model_fields.isEmpty then .noArgs else .withArgs model_fields }

/-- Embedding of the registration loop of `create_dynamic_endpoints`
(main.py lines 74–127): one `app.post` registration per listed tool, in
listing order, with no deduplication. -/
def create_dynamic_endpoints (tools : List Tool) : List Registration :=
  tools.map registerTool

/-- Starlette route dispatch: the router scans `app.routes` in
registration order and the first route whose path fully matches serves
the request. -/
def dispatch (regs : List Registration) (path : String) :
    Option Registration :=
  regs.find? fun r => r.path == path

/-! ## Startup configuration (`run`, main.py lines 161–252) -/

/-- One entry of the config file's `mcpServers` map: `command` is read
with `server_cfg["command"]`, while `args` and `env` are read with
`.get` defaults. -/
structure ServerCfg where
  command : String
  args : Option (List String)
  env : Option (List (String × String))
  deriving Repr

/-- A parsed config file: `config_data.get("mcpServers", \x7b\x7d)`
treats a missing `mcpServers` key as the empty map. -/
structure ConfigData where
  mcpServers : Option (List (String × ServerCfg))
  deriving Repr

/-- A startup configuration "names a spawn command" when
`server_command` is a truthy (non-`None`, non-empty) list, matching the
source's `if server_command:`. -/
def commandNamed (server_command : Option (List String)) : Bool :=
  !(server_command.getD []).isEmpty

/-- Embedding of the configuration check in `run` (main.py lines
200–240): a truthy `server_command` proceeds; otherwise a provided
config file proceeds unless its `mcpServers` map is empty or missing
(`if not mcp_servers: raise ValueError(...)`); otherwise
`raise ValueError("You must provide either server_command or config.")`.
Both `raise`s happen before `uvicorn.Server.serve()` is reached, so an
`error` result is fatal before any server starts serving. -/
def startupCheck (server_command : Option (List String))
    (config : Option ConfigData) : Except String Unit :=
  match server_command with
  | some (_ :: _) => .ok ()
  | _ =>
    match config with
    | some config_data =>
      if (config_data.mcpServers.getD []).isEmpty then
        .error "No 'mcpServers' found in config file."
      else .ok ()
    | none => .error "You must provide either server_command or config."

/-! ## Multi-backend startup (`lifespan`, main.py lines 130–158)

In config-file mode the main app has no `command`, so its lifespan
enters each mounted sub-app's lifespan through a single
`AsyncExitStack`, sequentially in mount order.  A sub-app's lifespan
spawns its backend (`stdio_client`), performs the handshake
(`ClientSession`, `session.initialize()`) and registers that backend's
endpoints (`create_dynamic_endpoints`).  The spawn/handshake outcome is
environment-determined, so a backend is modelled by the environment's
answer: `Except.error` when spawn or handshake fails, `Except.ok tools`
when the session comes up listing `tools`. -/

/-- One sub-app lifespan: on a successful spawn/handshake, register the
listed tools; on failure the exception propagates out of the context
manager. -/
def startBackend (spawn : Except String (List Tool)) :
    Except String (List Registration) :=
  spawn.map create_dynamic_endpoints

/-- The combined startup of the main app's lifespan: sub-app lifespans
are entered one after another on the shared `AsyncExitStack`.  The
first failure propagates: backends later in mount order are never
started, already-entered backends are unwound by the stack, and the
main lifespan (hence server startup) fails, so in the `error` case no
backend serves any endpoint. -/
def startAllBackends
    (backends : List (String × Except String (List Tool))) :
    Except String (List (String × List Registration)) :=
  match backends with
  | [] => .ok []
  | b :: rest =>
    match startBackend b.2 with
    | .error e => .error e
    | .ok regs => (startAllBackends rest).map ((b.1, regs) :: ·)

/-! ## Child-process environment (`run` lines 200–232, `lifespan` lines
148–152) -/

/-- Python dict lookup on an environment modelled as an association
list with unique keys. -/
def envLookup (env : List (String × String)) (key : String) :
    Option String :=
  (env.find? fun p => p.1 == key).map (·.2)

/-- Python's `\x7b**a, **b\x7d`: every key of `a` and of `b`, with `b`'s
value winning for a key present in both; `a`'s iteration order is kept
for its keys, then `b`'s new keys follow. -/
def dictMerge (a b : List (String × String)) : List (String × String) :=
  (a.map fun p => (p.1, (envLookup b p.1).getD p.2)) ++
    b.filter fun p => (envLookup a p.1).isNone

/-- Single-command mode (main.py line 204): the child environment state
is `os.environ.copy()`, an exact copy of the parent environment.
`lifespan` then passes `env=\x7b**env\x7d` to `StdioServerParameters`,
another exact copy. -/
def singleModeChildEnv (parentEnv : List (String × String)) :
    List (String × String) :=
  parentEnv

/-- Config-file mode (main.py line 232): the child environment is
`\x7b**os.environ, **server_cfg.get("env", \x7b\x7d)\x7d`, the parent
environment updated by the backend's configured entries. -/
def configModeChildEnv (parentEnv : List (String × String))
    (cfgEnv : Option (List (String × String))) :
    List (String × String) :=
  dictMerge parentEnv (cfgEnv.getD [])

/-! ## Sample values used to evaluate the embedding at concrete inputs -/

/-- A concrete stand-in for the external `json.loads` used to evaluate
the embedding at specific inputs: recognizes one fixed JSON text. -/
def sampleParse (s : String) : Option JValue :=
  if s = "[1,2]" then some (.arr [.int 1, .int 2]) else none

/-- A concrete tool with one required string parameter `path`. -/
def sampleTool : Tool :=
  { name := "list_dir",
    description := "List a directory",
    inputSchema :=
      { properties := some [("path", { type? := some "string", description? := none })],
        required := some ["path"] } }

/-- A concrete tool with no declared properties. -/
def samplePingTool : Tool :=
  { name := "ping",
    description := "Ping",
    inputSchema := { properties := none, required := none } }

/-- A concrete backend session answering every call with one text
part. -/
def sampleBackend : String → List (String × JValue) → List Content :=
  fun _ _ => [.text "ok"]

/-- A concrete form model: required string `path`, optional integer
`depth`. -/
def sampleFields : List (String × ModelField) :=
  [("path", { type := .str, required := true, description := "" }),
    ("depth", { type := .int, required := false, description := "" })]

/-! ## Theorems -/

/-- Splitting a content list splits the normalized output. -/
theorem process_tool_response_append (parse : String → Option JValue)
    (xs ys : List Content) :
    process_tool_response parse (xs ++ ys) =
      process_tool_response parse xs ++ process_tool_response parse ys := by
  induction xs with
  | nil => rfl
  | cons c rest ih =>
    simp only [List.cons_append, process_tool_response, List.append_eq, ih,
      List.append_assoc]

/-- C2: `get_python_type` is a pure total Lean function (no partiality,
no error path); it maps `"string"` to `str`, `"integer"` to `int`,
`"boolean"` to `bool`, `"number"` to `float`, `"object"` to
`Dict[str, Any]`, `"array"` to `list`, any other name to `str`, and an
absent type (defaulted to `"string"` by the call site's
`param_schema.get("type", "string")`) to `str`. -/
theorem get_python_type_spec :
    get_python_type "string" = .str ∧
    get_python_type "integer" = .int ∧
    get_python_type "boolean" = .bool ∧
    get_python_type "number" = .float ∧
    get_python_type "object" = .dictStrAny ∧
    get_python_type "array" = .list ∧
    (∀ s : String,
      s ∉ ["string", "integer", "boolean", "number", "object", "array"] →
        get_python_type s = .str) ∧
    get_python_type ((none : Option String).getD "string") = .str := by
  refine ⟨rfl, rfl, rfl, rfl, rfl, rfl, ?_, rfl⟩
  intro s hs
  simp only [List.mem_cons, List.not_mem_nil, or_false, not_or] at hs
  obtain ⟨h1, h2, h3, h4, h5, h6⟩ := hs
  simp [get_python_type, h1, h2, h3, h4, h5, h6]

/-- Witness for C2: evaluates the fallback branch at the unrecognized
type name `"frobnicate"`. -/
theorem get_python_type_spec_witness :
    "frobnicate" ∉ ["string", "integer", "boolean", "number", "object", "array"] ∧
    get_python_type "frobnicate" = .str :=
  ⟨by decide, get_python_type_spec.2.2.2.2.2.2.1 "frobnicate" (by decide)⟩

/-- C3: a text content part whose text parses as JSON is normalized to
the parsed structured value in its place; a text part whose text does
not parse passes through as the raw string, in its place. -/
theorem text_part_normalization (parse : String → Option JValue)
    (pre post : List Content) (t : String) :
    (∀ v, parse t = some v →
      process_tool_response parse (pre ++ .text t :: post) =
        process_tool_response parse pre ++
          v :: process_tool_response parse post) ∧
    (parse t = none →
      process_tool_response parse (pre ++ .text t :: post) =
        process_tool_response parse pre ++
          .str t :: process_tool_response parse post) := by
  constructor
  · intro v h
    rw [process_tool_response_append]
    simp [process_tool_response, h]
  · intro h
    rw [process_tool_response_append]
    simp [process_tool_response, h]

/-- Witness for C3: evaluates both branches, on a text that parses as
the JSON array `[1,2]` and on a text that is not valid JSON. -/
theorem text_part_normalization_witness :
    sampleParse "[1,2]" = some (.arr [.int 1, .int 2]) ∧
    process_tool_response sampleParse [.text "[1,2]"] =
      [.arr [.int 1, .int 2]] ∧
    sampleParse "hello" = none ∧
    process_tool_response sampleParse [.text "hello"] = [.str "hello"] :=
  ⟨rfl,
    (text_part_normalization sampleParse [] [] "[1,2]").1
      (.arr [.int 1, .int 2]) rfl,
    rfl,
    (text_part_normalization sampleParse [] [] "hello").2 rfl⟩

/-- C4 counterexample: a content part of a kind matched by none of the
three `isinstance` branches produces no output value at all — the
source's `if/elif/elif` chain has no `else`, so such a part is silently
dropped rather than emitted as a placeholder, and the output has fewer
elements than the input. -/
theorem normalize_unknown_part_counterexample :
    process_tool_response sampleParse [.other] = [] ∧
    (process_tool_response sampleParse [.other]).length ≠
      [Content.other].length :=
  ⟨rfl, by simp [process_tool_response]⟩

/-- C4 amended: normalization emits exactly one value per content part
of a known kind (text, image, embedded-resource), in source order,
never dropping or reordering known parts; a part of any other kind is
silently dropped (producing no value) without failing. -/
theorem normalize_order_spec (parse : String → Option JValue)
    (parts : List Content) :
    process_tool_response parse parts =
      (parts.filter isKnownContent).map (normalizeOne parse) := by
  induction parts with
  | nil => rfl
  | cons c rest ih =>
    cases c with
    | text t =>
      cases h : parse t <;>
        simp [process_tool_response, isKnownContent, normalizeOne, h, ih]
    | image mimeType data =>
      simp [process_tool_response, isKnownContent, normalizeOne, ih]
    | embeddedResource =>
      simp [process_tool_response, isKnownContent, normalizeOne, ih]
    | other =>
      simp [process_tool_response, isKnownContent, ih]

/-- C1: a request body rejected by the tool's form model (required
field missing or a field of the wrong mapped type) yields a client
error and the backend's `call_tool` is never invoked for that request
(backend call count = 0). -/
theorem validation_failure_no_backend_call (parse : String → Option JValue)
    (tool : Tool) (backend : String → List (String × JValue) → List Content)
    (body : List (String × JValue))
    (h : validateBody (buildModelFields tool.inputSchema) body = none) :
    invokeEndpoint parse tool.name (buildModelFields tool.inputSchema)
        backend body = (.clientError, []) ∧
    (invokeEndpoint parse tool.name (buildModelFields tool.inputSchema)
        backend body).2.length = 0 := by
  simp [invokeEndpoint, h]

/-- Witness for C1: `sampleTool` requires a string `path`; an empty
body (missing required field) and a body binding `path` to an integer
(wrong mapped type) both fail validation, answer a client error, and
make zero backend calls. -/
theorem validation_failure_no_backend_call_witness :
    validateBody (buildModelFields sampleTool.inputSchema) [] = none ∧
    invokeEndpoint sampleParse sampleTool.name
        (buildModelFields sampleTool.inputSchema) sampleBackend [] =
      (.clientError, []) ∧
    validateBody (buildModelFields sampleTool.inputSchema)
      [("path", .int 3)] = none ∧
    invokeEndpoint sampleParse sampleTool.name
        (buildModelFields sampleTool.inputSchema) sampleBackend
        [("path", .int 3)] =
      (.clientError, []) :=
  ⟨rfl,
    (validation_failure_no_backend_call sampleParse sampleTool sampleBackend
      [] rfl).1,
    rfl,
    (validation_failure_no_backend_call sampleParse sampleTool sampleBackend
      [("path", .int 3)] rfl).1⟩

/-- A required field successfully validated is bound to an actual value,
never to the `None` default. -/
theorem validateField_required_some (f : ModelField)
    (body : List (String × JValue)) (n : String) (v? : Option JValue)
    (hreq : f.required = true) (h : validateField f body n = some v?) :
    ∃ v, v? = some v := by
  cases hl : lookupKey body n with
  | none =>
    simp only [validateField, hl, hreq, if_true] at h
    exact Option.noConfusion h
  | some v =>
    simp only [validateField, hl] at h
    by_cases ht : typeMatches f.type v = true
    · rw [if_pos ht] at h
      exact ⟨v, (Option.some_inj.mp h).symm⟩
    · rw [if_neg ht] at h
      exact absurd h (by simp)

/-- Successful validation binds every required field of the form model
to an actual value in the decoded form data. -/
theorem validateBody_required_mem (fields : List (String × ModelField))
    (body : List (String × JValue))
    (form_data : List (String × Option JValue))
    (h : validateBody fields body = some form_data)
    (n : String) (f : ModelField) (hmem : (n, f) ∈ fields)
    (hreq : f.required = true) :
    ∃ v, (n, some v) ∈ form_data := by
  induction fields generalizing form_data with
  | nil => cases hmem
  | cons fd rest ih =>
    obtain ⟨fn, ff⟩ := fd
    cases hv : validateField ff body fn with
    | none =>
      simp only [validateBody, hv] at h
      exact Option.noConfusion h
    | some v? =>
      cases ht : validateBody rest body with
      | none =>
        simp only [validateBody, hv, ht] at h
        exact Option.noConfusion h
      | some tail =>
        simp only [validateBody, hv, ht] at h
        obtain rfl : (fn, v?) :: tail = form_data := Option.some_inj.mp h
        rcases List.mem_cons.mp hmem with heq | htail
        · cases heq
          obtain ⟨v, rfl⟩ := validateField_required_some _ body _ v?
            hreq hv
          exact ⟨v, List.mem_cons_self _ _⟩
        · obtain ⟨v, hvmem⟩ := ih tail ht htail
          exact ⟨v, List.mem_cons_of_mem _ hvmem⟩

/-- C5: on a valid request, the backend is called exactly once with
exactly the present, non-`None` form-data values
(`model_dump(exclude_none=True)`); a pair is forwarded iff the decoded
form data binds that field to an actual value, and every required field
of the form model is among the forwarded arguments. -/
theorem forwarded_arguments_spec (parse : String → Option JValue)
    (endpoint_name : String) (fields : List (String × ModelField))
    (backend : String → List (String × JValue) → List Content)
    (body : List (String × JValue))
    (form_data : List (String × Option JValue))
    (h : validateBody fields body = some form_data) :
    (invokeEndpoint parse endpoint_name fields backend body).2 =
      [{ tool := endpoint_name,
         arguments := model_dump_exclude_none form_data }] ∧
    (∀ n v, (n, v) ∈ model_dump_exclude_none form_data ↔
      (n, some v) ∈ form_data) ∧
    (∀ n f, (n, f) ∈ fields → f.required = true →
      ∃ v, (n, v) ∈ model_dump_exclude_none form_data) := by
  refine ⟨by simp [invokeEndpoint, h], ?_, ?_⟩
  · intro n v
    simp only [model_dump_exclude_none, List.mem_filterMap,
      Option.map_eq_some']
    constructor
    · rintro ⟨⟨n', v?⟩, hmem, a, ha, heq⟩
      obtain ⟨rfl, rfl⟩ : n' = n ∧ a = v := Prod.mk.injEq .. ▸ heq
      exact ha ▸ hmem
    · intro hmem
      exact ⟨(n, some v), hmem, v, rfl, rfl⟩
  · intro n f hmem hreq
    obtain ⟨v, hv⟩ := validateBody_required_mem fields body form_data h n f
      hmem hreq
    refine ⟨v, ?_⟩
    simp only [model_dump_exclude_none, List.mem_filterMap]
    exact ⟨(n, some v), hv, rfl⟩

/-- Witness for C5: validating `sampleFields` (required string `path`,
optional integer `depth`) against a body giving only `path` leaves
`depth` at its `None` default, and the forwarded arguments are exactly
the single `path` binding. -/
theorem forwarded_arguments_spec_witness :
    validateBody sampleFields [("path", .str "/tmp")] =
      some [("path", some (.str "/tmp")), ("depth", none)] ∧
    (invokeEndpoint sampleParse "list_dir" sampleFields sampleBackend
        [("path", .str "/tmp")]).2 =
      [{ tool := "list_dir", arguments := [("path", .str "/tmp")] }] :=
  ⟨rfl,
    (forwarded_arguments_spec sampleParse "list_dir" sampleFields
      sampleBackend [("path", .str "/tmp")]
      [("path", some (.str "/tmp")), ("depth", none)] rfl).1⟩

/-- C6: a tool whose `inputSchema` declares no properties (empty or
absent `properties` map) is still registered — one route at
`/{tool.name}` — with the parameterless handler, which decodes no
request body and always forwards an empty argument dict to the
backend's `call_tool`. -/
theorem empty_properties_endpoint (tools : List Tool) (t : Tool)
    (hmem : t ∈ tools) (hempty : t.inputSchema.properties.getD [] = []) :
    registerTool t ∈ create_dynamic_endpoints tools ∧
    (registerTool t).path = "/" ++ t.name ∧
    (registerTool t).handler = .noArgs ∧
    ∀ parse backend,
      (invokeEndpointNoArgs parse t.name backend).2 =
        [{ tool := t.name, arguments := [] }] := by
  refine ⟨List.mem_map_of_mem registerTool hmem, rfl, ?_, fun _ _ => rfl⟩
  simp [registerTool, buildModelFields, hempty]

/-- Witness for C6: `samplePingTool` (absent `properties`) inside a
two-tool listing is registered with the parameterless handler and
forwards `\x7b\x7d`. -/
theorem empty_properties_endpoint_witness :
    samplePingTool ∈ [sampleTool, samplePingTool] ∧
    samplePingTool.inputSchema.properties.getD [] = [] ∧
    registerTool samplePingTool ∈
      create_dynamic_endpoints [sampleTool, samplePingTool] ∧
    (registerTool samplePingTool).handler = .noArgs ∧
    (invokeEndpointNoArgs sampleParse samplePingTool.name sampleBackend).2 =
      [{ tool := "ping", arguments := [] }] := by
  have h := empty_properties_endpoint [sampleTool, samplePingTool]
    samplePingTool (by simp) rfl
  exact ⟨by simp, rfl, h.1, h.2.2.1, h.2.2.2 sampleParse sampleBackend⟩

/-- C7: under the spec's configuration surface, where a spawn command
and a config file are mutually exclusive (`config-file-path XOR
spawn-command`), the startup check raises a fatal error if and only if
the configuration names neither a (truthy) spawn command nor a config
file, or the named config file's `mcpServers` map is empty or missing;
in every other configuration startup proceeds past this check. -/
theorem startup_check_iff (server_command : Option (List String))
    (config : Option ConfigData)
    (hxor : commandNamed server_command = true → config = none) :
    (∃ e, startupCheck server_command config = .error e) ↔
      (commandNamed server_command = false ∧ config = none) ∨
      (∃ cfg, config = some cfg ∧
        (cfg.mcpServers.getD []).isEmpty = true) := by
  match server_command with
  | some (c :: args) =>
    have hc : commandNamed (some (c :: args)) = true := rfl
    have hnone := hxor hc
    subst hnone
    simp [startupCheck, hc]
  | some [] =>
    cases config with
    | none => simp [startupCheck, commandNamed]
    | some cfg =>
      by_cases he : cfg.mcpServers.getD [] = []
      · simp [startupCheck, commandNamed, he]
      · simp [startupCheck, commandNamed, List.isEmpty_iff, he]
  | none =>
    cases config with
    | none => simp [startupCheck, commandNamed]
    | some cfg =>
      by_cases he : cfg.mcpServers.getD [] = []
      · simp [startupCheck, commandNamed, he]
      · simp [startupCheck, commandNamed, List.isEmpty_iff, he]

/-- Witness for C7: a configuration with no spawn command and a config
file whose `mcpServers` map is empty is fatal, and the concrete error
is the source's `ValueError` message. -/
theorem startup_check_iff_witness :
    startupCheck none (some { mcpServers := some [] }) =
      .error "No 'mcpServers' found in config file." ∧
    (∃ e, startupCheck none (some { mcpServers := some [] }) =
      .error e) :=
  ⟨rfl,
    (startup_check_iff none (some { mcpServers := some [] })
        (fun h => absurd h (by decide))).mpr
      (Or.inr ⟨{ mcpServers := some [] }, rfl, rfl⟩)⟩

/-- A backend whose spawn/handshake fails. -/
def failingBackend : Except String (List Tool) := .error "spawn failed"

/-- A backend that comes up listing one tool. -/
def okBackend : Except String (List Tool) := .ok [samplePingTool]

/-- C8 counterexample: with backend `a` failing to spawn and backend
`b` healthy, the combined startup raises `a`'s error rather than
completing with `b`'s registrations: the main lifespan fails and no
`ok` state in which `b` serves its endpoints is reached, even though
`b` alone would have registered its endpoint — backend `b` is not
isolated from `a`'s failure. -/
theorem backend_isolation_counterexample :
    startAllBackends [("a", failingBackend), ("b", okBackend)] =
      .error "spawn failed" ∧
    (startAllBackends [("a", failingBackend), ("b", okBackend)]).isOk =
      false ∧
    startBackend okBackend = .ok [registerTool samplePingTool] :=
  ⟨rfl, rfl, rfl⟩

/-- C8 amended: the main app's lifespan enters the sub-app lifespans
sequentially through one `AsyncExitStack`, so when any backend's
spawn or handshake fails during startup the whole combined startup
fails: backends after it in mount order are never started, backends
already entered are unwound, and the composition reaches no state in
which the remaining backends serve their endpoints. -/
theorem backend_failure_aborts_startup
    (backends : List (String × Except String (List Tool)))
    (name e : String)
    (hmem : (name, (Except.error e : Except String (List Tool))) ∈
      backends) :
    ∃ e', startAllBackends backends = .error e' := by
  induction backends with
  | nil => cases hmem
  | cons b rest ih =>
    rcases List.mem_cons.mp hmem with heq | htail
    · cases heq
      exact ⟨e, rfl⟩
    · cases hb : startBackend b.2 with
      | error e' => exact ⟨e', by simp [startAllBackends, hb]⟩
      | ok regs =>
        obtain ⟨e', he'⟩ := ih htail
        exact ⟨e', by simp [startAllBackends, hb, he', Except.map]⟩

/-- Witness for C8 (amended): evaluates the aborted startup on the
two-backend composition where the first backend fails to spawn. -/
theorem backend_failure_aborts_startup_witness :
    (("a", (Except.error "spawn failed" : Except String (List Tool))) ∈
      [("a", failingBackend), ("b", okBackend)]) ∧
    ∃ e', startAllBackends [("a", failingBackend), ("b", okBackend)] =
      .error e' :=
  ⟨by simp [failingBackend],
    backend_failure_aborts_startup [("a", failingBackend),
      ("b", okBackend)] "a" "spawn failed" (by simp [failingBackend])⟩

/-- A tool named `search` with no declared properties. -/
def dupToolA : Tool :=
  { name := "search",
    description := "first search tool",
    inputSchema := { properties := none, required := none } }

/-- A second tool also named `search`, with one required parameter, so
its registration differs from `dupToolA`'s. -/
def dupToolB : Tool :=
  { name := "search",
    description := "second search tool",
    inputSchema :=
      { properties := some [("q", { type? := some "string", description? := none })],
        required := some ["q"] } }

/-- C9 counterexample: with two tools both named `search`, a request to
`/search` is served by the handler of the FIRST registered duplicate,
not the last — Starlette's router scans routes in registration order
and the first full match wins, and the two registrations differ. -/
theorem duplicate_last_wins_counterexample :
    dispatch (create_dynamic_endpoints [dupToolA, dupToolB]) "/search" =
      some (registerTool dupToolA) ∧
    registerTool dupToolA ≠ registerTool dupToolB :=
  ⟨rfl, by decide⟩

/-- C9 amended: duplicate tool names within one backend are not
deduplicated — the loop registers one route per listed tool — but at
dispatch time the FIRST-registered handler for the path wins, because
the router matches routes in registration order. -/
theorem duplicate_registration_first_wins (t t' : Tool)
    (rest : List Tool) (_hmem : t' ∈ rest) (_hname : t'.name = t.name) :
    (create_dynamic_endpoints (t :: rest)).length = rest.length + 1 ∧
    dispatch (create_dynamic_endpoints (t :: rest)) ("/" ++ t.name) =
      some (registerTool t) := by
  constructor
  · simp [create_dynamic_endpoints]
  · simp only [create_dynamic_endpoints, List.map_cons, dispatch]
    apply List.find?_cons_of_pos
    simp [registerTool]

/-- Witness for C9 (amended): evaluates both conjuncts on the two
duplicate `search` tools. -/
theorem duplicate_registration_first_wins_witness :
    dupToolB ∈ [dupToolB] ∧ dupToolB.name = dupToolA.name ∧
    (create_dynamic_endpoints [dupToolA, dupToolB]).length = 2 ∧
    dispatch (create_dynamic_endpoints [dupToolA, dupToolB]) "/search" =
      some (registerTool dupToolA) :=
  ⟨by simp, rfl,
    (duplicate_registration_first_wins dupToolA dupToolB [dupToolB]
      (by simp) rfl).1,
    (duplicate_registration_first_wins dupToolA dupToolB [dupToolB]
      (by simp) rfl).2⟩

/-- `find?` commutes with a `filter` whose predicate is implied by the
search predicate. -/
theorem find?_filter_eq_of_imp (l : List (String × String))
    (q p : String × String → Bool)
    (h : ∀ x, p x = true → q x = true) :
    (l.filter q).find? p = l.find? p := by
  induction l with
  | nil => rfl
  | cons x xs ih =>
    cases hq : q x with
    | true =>
      rw [List.filter_cons_of_pos hq]
      cases hp : p x with
      | true => rw [List.find?_cons_of_pos _ hp, List.find?_cons_of_pos _ hp]
      | false =>
        rw [List.find?_cons_of_neg _ (by simp [hp]),
          List.find?_cons_of_neg _ (by simp [hp]), ih]
    | false =>
      rw [List.filter_cons_of_neg (by simp [hq])]
      cases hp : p x with
      | true => exact absurd (h x hp) (by simp [hq])
      | false => rw [List.find?_cons_of_neg _ (by simp [hp]), ih]

/-- Lookup in `\x7b**a, **b\x7d`: `b`'s binding wins, otherwise `a`'s
binding is kept. -/
theorem envLookup_dictMerge (a b : List (String × String))
    (key : String) :
    envLookup (dictMerge a b) key =
      (envLookup b key).or (envLookup a key) := by
  have hpf : ((fun q : String × String => q.1 == key) ∘
      fun p : String × String => (p.1, (envLookup b p.1).getD p.2)) =
      fun q : String × String => q.1 == key := funext fun q => rfl
  cases ha : a.find? (fun q : String × String => q.1 == key) with
  | none =>
    have ha' : envLookup a key = none := by rw [envLookup, ha]; rfl
    have hfilter : (b.filter fun p => (envLookup a p.1).isNone).find?
        (fun q : String × String => q.1 == key) =
        b.find? (fun q : String × String => q.1 == key) := by
      apply find?_filter_eq_of_imp
      intro x hp
      have hx : x.1 = key := eq_of_beq hp
      rw [hx, ha']
      rfl
    rw [envLookup, dictMerge, List.find?_append, List.find?_map, hpf, ha,
      hfilter, Option.map_none', Option.none_or, ha', Option.or_none]
    rfl
  | some x0 =>
    have hp := List.find?_some ha
    have hx0 : x0.1 = key := eq_of_beq hp
    have ha' : envLookup a key = some x0.2 := by rw [envLookup, ha]; rfl
    rw [envLookup, dictMerge, List.find?_append, List.find?_map, hpf, ha,
      Option.map_some', Option.or_some, Option.map_some', ha']
    show some ((envLookup b x0.1).getD x0.2) =
      (envLookup b key).or (some x0.2)
    rw [hx0]
    cases hb : envLookup b key with
    | none => rw [Option.getD_none, Option.none_or]
    | some w => rw [Option.getD_some, Option.or_some]

/-- C10: the environment handed to every spawned backend child always
contains the full parent process environment: in single-command mode it
is an exact copy of the parent environment, and in config-file mode a
key resolves to the backend's configured value when configured and to
the parent's value otherwise — so every parent variable is present and
a configured entry overrides the parent's value for the same key. -/
theorem child_env_spec (parentEnv : List (String × String))
    (cfgEnv? : Option (List (String × String))) (key : String) :
    singleModeChildEnv parentEnv = parentEnv ∧
    envLookup (configModeChildEnv parentEnv cfgEnv?) key =
      ((envLookup (cfgEnv?.getD []) key).or (envLookup parentEnv key)) ∧
    ((envLookup parentEnv key).isSome = true →
      (envLookup (configModeChildEnv parentEnv cfgEnv?) key).isSome =
        true) ∧
    (∀ v, envLookup (cfgEnv?.getD []) key = some v →
      envLookup (configModeChildEnv parentEnv cfgEnv?) key = some v) := by
  refine ⟨rfl, envLookup_dictMerge parentEnv (cfgEnv?.getD []) key,
    ?_, ?_⟩
  · intro h
    rw [configModeChildEnv, envLookup_dictMerge]
    cases envLookup (cfgEnv?.getD []) key <;> simp_all
  · intro v hv
    rw [configModeChildEnv, envLookup_dictMerge, hv, Option.or_some]

/-- Witness for C10: the parent's `PATH` survives into the merged child
environment and the configured `HOME` overrides the parent's. -/
theorem child_env_spec_witness :
    (envLookup [("PATH", "/usr/bin"), ("HOME", "/root")] "PATH").isSome =
      true ∧
    (envLookup (configModeChildEnv
        [("PATH", "/usr/bin"), ("HOME", "/root")]
        (some [("HOME", "/home/x"), ("EXTRA", "1")])) "PATH").isSome =
      true ∧
    envLookup (configModeChildEnv
        [("PATH", "/usr/bin"), ("HOME", "/root")]
        (some [("HOME", "/home/x"), ("EXTRA", "1")])) "HOME" =
      some "/home/x" :=
  ⟨rfl,
    (child_env_spec [("PATH", "/usr/bin"), ("HOME", "/root")]
      (some [("HOME", "/home/x"), ("EXTRA", "1")]) "PATH").2.2.1 rfl,
    (child_env_spec [("PATH", "/usr/bin"), ("HOME", "/root")]
      (some [("HOME", "/home/x"), ("EXTRA", "1")]) "HOME").2.2.2
      "/home/x" rfl⟩

end Mcpo
